import Mathlib

/-!
Verification of the socialkit repository (Bluesky and Reddit client wrappers).

The JavaScript source is shallowly embedded:
* JS objects become structures whose possibly-absent fields are `Option`;
* a thrown JS exception becomes `Except.error`; in particular reading a
  property of `undefined` becomes `JsError.typeError`;
* every network call the client issues is recorded in a `Req` trace, and the
  responses the provider would give are passed in as explicit arguments
  (a finite list of page responses for the pagination loops, a function from
  did/path to a response for the per-item lookups);
* a pagination loop that would need one more page than the supplied response
  list provides returns `none` (the model does not invent responses).
-/

namespace Socialkit

/-- A thrown JS error: either "new Error(message)" (also used for errors
propagated from the SDK / transport) or a TypeError from accessing a
property of `undefined`. -/
inductive JsError where
  | jsError (message : String)
  | typeError
  deriving Repr, DecidableEq

/-- JS falsiness of a possibly-absent string: `undefined` and the empty
string are falsy (used by `!x` and `x || y` in the source). -/
def jsStrFalsy : Option String → Bool
  | none => true
  | some s => s = ""

/-- JS truthiness of a possibly-absent string, i.e. `!!x` in the source. -/
def jsTruthyStr (s : Option String) : Bool := !(jsStrFalsy s)

/-- JS `a || b` on possibly-absent strings. -/
def jsOrStr (a b : Option String) : Option String :=
  if jsStrFalsy a then b else a

/-- JS template interpolation of a possibly-absent string: an `undefined`
value prints as the literal text "undefined". -/
def jsTemplate : Option String → String
  | none => "undefined"
  | some s => s

/-- The grouping loop behind the JS one-character String.split: an empty
string yields one empty group, and every separator occurrence starts a new
group. Implemented by structural recursion so concrete runs reduce. -/
def splitCharList (sep : Char) : List Char → List (List Char)
  | [] => [[]]
  | c :: rest =>
    let groups := splitCharList sep rest
    if c = sep then [] :: groups
    else
      match groups with
      | [] => [[c]]
      | g :: gs => (c :: g) :: gs

/-- JS `s.split(sep)` for a one-character separator such as "/". -/
def jsSplitChar (sep : Char) (s : String) : List String :=
  (splitCharList sep s.toList).map fun cs => String.mk cs

--- Bluesky raw feed-item shapes (the fields the client reads) ---

/-- An author view (`post.author` / `reply.parent.author`). -/
structure BskyAuthor where
  did : Option String
  handle : Option String
  displayName : Option String
  avatar : Option String
  deriving Repr, DecidableEq

/-- A strong ref `{cid, uri}` as it appears inside `record.reply`. -/
structure StrongRef where
  cid : Option String
  uri : Option String
  deriving Repr, DecidableEq

/-- `record.reply` of a post record (the client only tests `.parent`). -/
structure BskyRecordReply where
  root : Option StrongRef
  parent : Option StrongRef
  deriving Repr, DecidableEq

/-- A post record (`post.record`). -/
structure BskyRecord where
  text : Option String
  createdAt : Option String
  reply : Option BskyRecordReply
  deriving Repr, DecidableEq

/-- An image view inside an images embed; the client copies it wholesale
without inspecting it, so it is modelled as an opaque payload string. -/
structure BskyImage where
  payload : String
  deriving Repr, DecidableEq

/-- An external-link view (`embed.external`). -/
structure BskyExternal where
  uri : Option String
  deriving Repr, DecidableEq

/-- `embed.media` of a recordWithMedia embed. `typeTag` stands for the JS
field "$type" ($ is not a Lean identifier character). -/
structure BskyMedia where
  typeTag : Option String
  images : Option (List BskyImage)
  external : Option BskyExternal
  deriving Repr, DecidableEq

/-- `post.embed`. `typeTag` stands for the JS field "$type". -/
structure BskyEmbed where
  typeTag : Option String
  images : Option (List BskyImage)
  external : Option BskyExternal
  media : Option BskyMedia
  deriving Repr, DecidableEq

/-- A post view (`item.post`). -/
structure BskyPostView where
  uri : Option String
  cid : Option String
  author : Option BskyAuthor
  record : Option BskyRecord
  embed : Option BskyEmbed
  deriving Repr, DecidableEq

/-- `item.reply.parent`: the parent post view of a reply feed item. -/
structure BskyReplyParent where
  author : Option BskyAuthor
  record : Option BskyRecord
  uri : Option String
  deriving Repr, DecidableEq

/-- `item.reply` of a feed item. -/
structure BskyReply where
  parent : Option BskyReplyParent
  deriving Repr, DecidableEq

/-- `item.reason` of a feed item. `typeTag` stands for "$type". -/
structure BskyReason where
  typeTag : Option String
  deriving Repr, DecidableEq

/-- One raw Bluesky feed item as consumed by `BskyClient.parseFeedItem`. -/
structure BskyFeedItem where
  post : Option BskyPostView
  reply : Option BskyReply
  reason : Option BskyReason
  deriving Repr, DecidableEq

/-- The `replyTo` sub-record produced by the normalizer. -/
structure ReplyContent where
  handle : String
  displayName : String
  text : String
  createdAt : String
  uri : String
  deriving Repr, DecidableEq

/-- The canonical post produced by `BskyClient.parseFeedItem`. The JS
`date` field (`new Date(createdAt)` when `createdAt` is truthy, else null)
is represented by the ISO source string it is constructed from. -/
structure ParsedPost where
  root : BskyFeedItem
  type : String
  handle : String
  displayName : String
  avatar : String
  text : String
  createdAt : String
  date : Option String
  uri : String
  cid : String
  url : String
  replyTo : Option ReplyContent
  images : List BskyImage
  externals : List (Option String)
  deriving Repr, DecidableEq

namespace BskyClient

/-- Embedding of `BskyClient.parseFeedItem` (static, pure). Returns `none`
exactly when the item has no `post` payload; otherwise builds the canonical
post record. -/
def parseFeedItem (item : BskyFeedItem) : Option ParsedPost :=
  match item.post with
  | none => none
  | some post =>
    let replyPost := item.reply.bind BskyReply.parent
    let type :=
      if (item.reason.bind BskyReason.typeTag) = some "app.bsky.feed.defs#reasonRepost" then
        "repost"
      else if ((post.record.bind BskyRecord.reply).bind BskyRecordReply.parent).isSome then
        "reply"
      else if (post.embed.bind BskyEmbed.typeTag) = some "app.bsky.embed.record#view"
           || (post.embed.bind BskyEmbed.typeTag) = some "app.bsky.embed.recordWithMedia#view" then
        "quote"
      else
        "post"
    let replyContent : Option ReplyContent := replyPost.map fun rp =>
      { handle := (rp.author.bind BskyAuthor.handle).getD ""
        displayName := (rp.author.bind BskyAuthor.displayName).getD ""
        text := (rp.record.bind BskyRecord.text).getD ""
        createdAt := (rp.record.bind BskyRecord.createdAt).getD ""
        uri := rp.uri.getD "" }
    let embed := post.embed
    let tag := embed.bind BskyEmbed.typeTag
    let media := embed.bind BskyEmbed.media
    let mediaTag := media.bind BskyMedia.typeTag
    let images : List BskyImage :=
      if tag = some "app.bsky.embed.images#view" then
        (embed.bind BskyEmbed.images).getD []
      else if tag = some "app.bsky.embed.recordWithMedia#view" then
        (if mediaTag = some "app.bsky.embed.images#view" then
          (media.bind BskyMedia.images).getD []
        else [])
      else []
    let externals : List (Option String) :=
      if tag = some "app.bsky.embed.external#view" then
        [(embed.bind BskyEmbed.external).bind BskyExternal.uri]
      else if tag = some "app.bsky.embed.recordWithMedia#view" then
        (if mediaTag = some "app.bsky.embed.external#view" then
          [(media.bind BskyMedia.external).bind BskyExternal.uri]
        else [])
      else []
    let uri := post.uri.getD ""
    let rkey := (jsSplitChar '/' uri).getLastD ""
    let handle := (post.author.bind BskyAuthor.handle).getD ""
    let createdAt := (post.record.bind BskyRecord.createdAt).getD ""
    let webUrl := "https://bsky.app/profile/" ++ handle ++ "/post/" ++ rkey
    some
      { root := item
        type := type
        handle := handle
        displayName := (post.author.bind BskyAuthor.displayName).getD ""
        avatar := (post.author.bind BskyAuthor.avatar).getD ""
        text := (post.record.bind BskyRecord.text).getD ""
        createdAt := createdAt
        date := if createdAt = "" then none else some createdAt
        uri := post.uri.getD ""
        cid := post.cid.getD ""
        url := webUrl
        replyTo := replyContent
        images := images
        externals := externals }

end BskyClient

--- Write-side record shapes ---

/-- The opaque result of `agent.post` (uri/cid of the created record). -/
structure PostResult where
  uri : Option String
  cid : Option String
  deriving Repr, DecidableEq

/-- A `{cid, uri}` pair copied from a resolved thread post into a reply. -/
structure ReplyRefPair where
  cid : Option String
  uri : Option String
  deriving Repr, DecidableEq

/-- The `reply` field of a submitted post record. -/
structure ReplyField where
  root : ReplyRefPair
  parent : ReplyRefPair
  deriving Repr, DecidableEq

/-- One uploaded image embed entry (`{alt, image: blob}`). -/
structure UploadedImage where
  alt : String
  image : String
  deriving Repr, DecidableEq

/-- A record of $type app.bsky.feed.post as submitted by the client. -/
structure FeedPostRecord where
  text : String
  createdAt : String
  reply : Option ReplyField
  embedImages : Option (List UploadedImage)
  deriving Repr, DecidableEq

/-- A record of $type app.bsky.feed.like as submitted by the client. -/
structure LikeRecord where
  subjectUri : String
  subjectCid : String
  createdAt : String
  deriving Repr, DecidableEq

/-- Any record passed to `agent.post`. -/
inductive PostRecord where
  | feedPost (record : FeedPostRecord)
  | like (record : LikeRecord)
  deriving Repr, DecidableEq

/-- One network request issued by a client; operations record their
requests in order, so "no network call" is an empty trace. -/
inductive Req where
  | getTimeline (cursor : Option String)
  | getAuthorFeed (actor : String) (cursor : Option String)
  | getProfile (actor : String)
  | searchActors (term : String) (limit : Nat)
  | getFollows (actor : String) (cursor : Option String)
  | getFollowers (actor : String) (cursor : Option String)
  | getPostThread (uri : String)
  | post (record : PostRecord)
  | uploadBlob (url : String)
  | httpGet (path : String)
  deriving Repr, DecidableEq

--- Session state and provider response shapes ---

/-- The Bluesky client state: `this.agent.session?.did`, collapsed to the
did when a session exists. `none` is the unauthenticated state. -/
structure BskyState where
  session : Option String
  deriving Repr, DecidableEq

/-- A page returned by `agent.getTimeline` / `agent.getAuthorFeed`. -/
structure FeedResp where
  feed : Option (List BskyFeedItem)
  cursor : Option String
  deriving Repr, DecidableEq

/-- The `viewer` block of a profile view. `followedBy` and `following` are
AT-URIs when present, and the source tests them with `!!`. -/
structure BskyViewer where
  followedBy : Option String
  following : Option String
  deriving Repr, DecidableEq

/-- A profile view as returned by `agent.getProfile` / `agent.searchActors`. -/
structure ProfileData where
  did : Option String
  handle : Option String
  displayName : Option String
  description : Option String
  avatar : Option String
  banner : Option String
  followersCount : Option Int
  followsCount : Option Int
  postsCount : Option Int
  viewer : Option BskyViewer
  deriving Repr, DecidableEq

/-- The summary object returned by `BskyClient.getProfile`. -/
structure ProfileSummary where
  did : Option String
  handle : Option String
  displayName : Option String
  description : Option String
  avatar : Option String
  banner : Option String
  followersCount : Option Int
  followsCount : Option Int
  postsCount : Option Int
  webUrl : String
  deriving Repr, DecidableEq

/-- Response of `agent.searchActors`. -/
structure SearchResp where
  actors : Option (List ProfileData)
  deriving Repr, DecidableEq

/-- One entry of `searchUsers`: the actor spread together with `webUrl`. -/
structure ActorResult where
  actor : ProfileData
  webUrl : String
  deriving Repr, DecidableEq

/-- One entry of a follows/followers page. `followsMe` / `iFollow` start
absent and are assigned by the loops. The did is modelled as always
present (the source reads it without a guard). -/
structure FollowUser where
  did : String
  handle : Option String
  followsMe : Option Bool
  iFollow : Option Bool
  deriving Repr, DecidableEq

/-- A page returned by `agent.getFollows`. -/
structure FollowsResp where
  follows : Option (List FollowUser)
  cursor : Option String
  deriving Repr, DecidableEq

/-- A page returned by `agent.getFollowers`. -/
structure FollowersResp where
  followers : Option (List FollowUser)
  cursor : Option String
  deriving Repr, DecidableEq

/-- The post inside a resolved thread (`data.thread?.post`). -/
structure ThreadPost where
  cid : Option String
  uri : Option String
  deriving Repr, DecidableEq

/-- `data.thread` of `agent.getPostThread`. -/
structure ThreadView where
  post : Option ThreadPost
  deriving Repr, DecidableEq

/-- Response of `agent.getPostThread`. -/
structure ThreadResp where
  thread : Option ThreadView
  deriving Repr, DecidableEq

namespace BskyClient

--- Pagination loops ---

/-- The inner for-loop of `getTimeline` / `getProfilePosts`: parse each raw
item with `keep`, push accepted ones, and break once `limit` is reached. -/
def pushItems (limit : Nat) (keep : BskyFeedItem → Option ParsedPost) :
    List ParsedPost → List BskyFeedItem → List ParsedPost
  | acc, [] => acc
  | acc, item :: rest =>
    match keep item with
    | some parsed =>
      let acc2 := acc ++ [parsed]
      if limit ≤ acc2.length then acc2 else pushItems limit keep acc2 rest
    | none => pushItems limit keep acc rest

/-- The shared while-loop of `getTimeline` / `getProfilePosts`. `resps` is
the sequence of provider responses, one per fetch; the loop returns the
request trace together with the outcome (`none` when it would need a page
beyond the supplied responses). -/
def feedLoop (keep : BskyFeedItem → Option ParsedPost) (mkReq : Option String → Req)
    (limit : Nat) :
    List ParsedPost → Option String → List (Except JsError FeedResp) →
    List Req × Option (Except JsError (List ParsedPost))
  | acc, _, [] =>
    if limit ≤ acc.length then ([], some (Except.ok acc)) else ([], none)
  | acc, cursor, resp :: rest =>
    if limit ≤ acc.length then ([], some (Except.ok acc))
    else
      let req := mkReq cursor
      match resp with
      | Except.error e => ([req], some (Except.error e))
      | Except.ok data =>
        let feed := data.feed.getD []
        let c2 := data.cursor
        let acc2 := pushItems limit keep acc feed
        if jsStrFalsy c2 || feed.isEmpty then
          ([req], some (Except.ok acc2))
        else
          let next := feedLoop keep mkReq limit acc2 c2 rest
          (req :: next.1, next.2)

/-- The acceptance test of `getTimeline`: parse, then
`(!type || parsed.type === type) && (includeSelf || parsed.root.post.author?.did !== selfDid)`.
`parsed.root.post` is read without an optional chain in the source, which
cannot be `undefined` here because parsing succeeded. -/
def timelineKeep (tp : Option String) (includeSelf : Bool) (selfDid : String)
    (item : BskyFeedItem) : Option ParsedPost :=
  match parseFeedItem item with
  | none => none
  | some parsed =>
    if (jsStrFalsy tp || tp == some parsed.type) &&
       (includeSelf ||
         ((parsed.root.post.bind BskyPostView.author).bind BskyAuthor.did != some selfDid)) then
      some parsed
    else none

/-- The acceptance test of `getProfilePosts`: parse, keep when
`parsed.type === type`. -/
def profileKeep (tp : String) (item : BskyFeedItem) : Option ParsedPost :=
  match parseFeedItem item with
  | none => none
  | some parsed => if parsed.type == tp then some parsed else none

/-- Embedding of `BskyClient.getTimeline`. -/
def getTimeline (st : BskyState) (tp : Option String) (limit : Nat) (includeSelf : Bool)
    (resps : List (Except JsError FeedResp)) :
    List Req × Option (Except JsError (List ParsedPost)) :=
  if jsStrFalsy st.session then
    ([], some (Except.error (JsError.jsError "You must be logged in to use getTimeline()")))
  else
    feedLoop (timelineKeep tp includeSelf (st.session.getD "")) Req.getTimeline limit
      [] none resps

/-- Embedding of `BskyClient.getProfilePosts`. -/
def getProfilePosts (st : BskyState) (handle : Option String) (tp : String) (limit : Nat)
    (resps : List (Except JsError FeedResp)) :
    List Req × Option (Except JsError (List ParsedPost)) :=
  let actor := jsOrStr handle st.session
  if jsStrFalsy actor then
    ([], some (Except.error (JsError.jsError "No handle or logged-in user found.")))
  else
    feedLoop (profileKeep tp) (Req.getAuthorFeed (actor.getD "")) limit [] none resps

/-- Embedding of `BskyClient.getProfile`. -/
def getProfile (st : BskyState) (handle : Option String)
    (resp : Except JsError ProfileData) : List Req × Except JsError ProfileSummary :=
  let actor := jsOrStr handle st.session
  if jsStrFalsy actor then
    ([], Except.error (JsError.jsError "No handle or logged-in user found."))
  else
    let req := Req.getProfile (actor.getD "")
    match resp with
    | Except.error e => ([req], Except.error e)
    | Except.ok data =>
      ([req], Except.ok
        { did := data.did
          handle := data.handle
          displayName := data.displayName
          description := data.description
          avatar := data.avatar
          banner := data.banner
          followersCount := data.followersCount
          followsCount := data.followsCount
          postsCount := data.postsCount
          webUrl := "https://bsky.app/profile/" ++ jsTemplate data.handle })

/-- Embedding of `BskyClient.searchUsers`. The source performs no session
check before calling `agent.searchActors`; the state is ignored. -/
def searchUsers (st : BskyState) (query : String) (limit : Nat)
    (resp : Except JsError SearchResp) : List Req × Except JsError (List ActorResult) :=
  let _ := st
  let req := Req.searchActors query limit
  match resp with
  | Except.error e => ([req], Except.error e)
  | Except.ok data =>
    ([req], Except.ok ((data.actors.getD []).map fun actor =>
      { actor := actor, webUrl := "https://bsky.app/profile/" ++ jsTemplate actor.handle }))

/-- The per-page for-loop of `getFollows`: sequentially fetch each profile
(a thrown lookup propagates, there is no try/catch) and assign
`follow.followsMe = !!profile.data.viewer?.followedBy`. -/
def followsAnnotate (profiles : String → Except JsError ProfileData) :
    List FollowUser → List Req × Except JsError (List FollowUser)
  | [] => ([], Except.ok [])
  | u :: rest =>
    match profiles u.did with
    | Except.error e => ([Req.getProfile u.did], Except.error e)
    | Except.ok prof =>
      let u2 := { u with
        followsMe := some (jsTruthyStr (prof.viewer.bind BskyViewer.followedBy)) }
      let next := followsAnnotate profiles rest
      (Req.getProfile u.did :: next.1, next.2.map (u2 :: ·))

/-- The while-loop of `getFollows`: annotate and push every entry of each
page, and slice the result to `limit` on return. The empty-page break tests
`data.follows?.length === 0`, which is false when `follows` is absent. -/
def followsLoop (profiles : String → Except JsError ProfileData) (actor : String)
    (limit : Nat) :
    List FollowUser → Option String → List (Except JsError FollowsResp) →
    List Req × Option (Except JsError (List FollowUser))
  | follows, _, [] =>
    if limit ≤ follows.length then ([], some (Except.ok (follows.take limit)))
    else ([], none)
  | follows, cursor, resp :: rest =>
    if limit ≤ follows.length then ([], some (Except.ok (follows.take limit)))
    else
      let req := Req.getFollows actor cursor
      match resp with
      | Except.error e => ([req], some (Except.error e))
      | Except.ok data =>
        match followsAnnotate profiles (data.follows.getD []) with
        | (tr, Except.error e) => (req :: tr, some (Except.error e))
        | (tr, Except.ok annotated) =>
          let follows2 := follows ++ annotated
          let c2 := data.cursor
          if jsStrFalsy c2 ||
             (match data.follows with | none => false | some l => l.isEmpty) then
            (req :: tr, some (Except.ok (follows2.take limit)))
          else
            let next := followsLoop profiles actor limit follows2 c2 rest
            (req :: tr ++ next.1, next.2)

/-- Embedding of `BskyClient.getFollows`. -/
def getFollows (st : BskyState) (handle : Option String) (limit : Nat)
    (profiles : String → Except JsError ProfileData)
    (resps : List (Except JsError FollowsResp)) :
    List Req × Option (Except JsError (List FollowUser)) :=
  let actor := jsOrStr handle st.session
  if jsStrFalsy actor then
    ([], some (Except.error (JsError.jsError "No handle or logged-in user found.")))
  else
    followsLoop profiles (actor.getD "") limit [] none resps

/-- The per-page for-loop of `getFollowers`: like `followsAnnotate` but
assigns `follower.iFollow = !!profile.data.viewer?.following`. -/
def followersAnnotate (profiles : String → Except JsError ProfileData) :
    List FollowUser → List Req × Except JsError (List FollowUser)
  | [] => ([], Except.ok [])
  | u :: rest =>
    match profiles u.did with
    | Except.error e => ([Req.getProfile u.did], Except.error e)
    | Except.ok prof =>
      let u2 := { u with
        iFollow := some (jsTruthyStr (prof.viewer.bind BskyViewer.following)) }
      let next := followersAnnotate profiles rest
      (Req.getProfile u.did :: next.1, next.2.map (u2 :: ·))

/-- The while-loop of `getFollowers`. -/
def followersLoop (profiles : String → Except JsError ProfileData) (actor : String)
    (limit : Nat) :
    List FollowUser → Option String → List (Except JsError FollowersResp) →
    List Req × Option (Except JsError (List FollowUser))
  | followers, _, [] =>
    if limit ≤ followers.length then ([], some (Except.ok (followers.take limit)))
    else ([], none)
  | followers, cursor, resp :: rest =>
    if limit ≤ followers.length then ([], some (Except.ok (followers.take limit)))
    else
      let req := Req.getFollowers actor cursor
      match resp with
      | Except.error e => ([req], some (Except.error e))
      | Except.ok data =>
        match followersAnnotate profiles (data.followers.getD []) with
        | (tr, Except.error e) => (req :: tr, some (Except.error e))
        | (tr, Except.ok annotated) =>
          let followers2 := followers ++ annotated
          let c2 := data.cursor
          if jsStrFalsy c2 ||
             (match data.followers with | none => false | some l => l.isEmpty) then
            (req :: tr, some (Except.ok (followers2.take limit)))
          else
            let next := followersLoop profiles actor limit followers2 c2 rest
            (req :: tr ++ next.1, next.2)

/-- Embedding of `BskyClient.getFollowers`. -/
def getFollowers (st : BskyState) (handle : Option String) (limit : Nat)
    (profiles : String → Except JsError ProfileData)
    (resps : List (Except JsError FollowersResp)) :
    List Req × Option (Except JsError (List FollowUser)) :=
  let actor := jsOrStr handle st.session
  if jsStrFalsy actor then
    ([], some (Except.error (JsError.jsError "No handle or logged-in user found.")))
  else
    followersLoop profiles (actor.getD "") limit [] none resps

/-- One parallel branch of the `Promise.all` fan-out in
`getNonMutualFollows`: fetch the profile (the request is always issued);
a thrown lookup is caught and yields `none`, a mutual follow yields `none`,
otherwise the entry is kept with `followsMe: false`. -/
def nonMutualCheck (profiles : String → Except JsError ProfileData) (u : FollowUser) :
    Req × Option FollowUser :=
  (Req.getProfile u.did,
    match profiles u.did with
    | Except.error _ => none
    | Except.ok prof =>
      if jsTruthyStr (prof.viewer.bind BskyViewer.followedBy) then none
      else some { u with followsMe := some false })

/-- The push loop over the settled fan-out results: skip `null` results and
break once `limit` entries are collected. -/
def pushChecks (limit : Nat) : List FollowUser → List (Option FollowUser) → List FollowUser
  | acc, [] => acc
  | acc, none :: rest => pushChecks limit acc rest
  | acc, some u :: rest =>
    let acc2 := acc ++ [u]
    if limit ≤ acc2.length then acc2 else pushChecks limit acc2 rest

/-- The while-loop of `getNonMutualFollows`. -/
def nonMutualLoop (profiles : String → Except JsError ProfileData) (actor : String)
    (limit : Nat) :
    List FollowUser → Option String → List (Except JsError FollowsResp) →
    List Req × Option (Except JsError (List FollowUser))
  | acc, _, [] =>
    if limit ≤ acc.length then ([], some (Except.ok acc)) else ([], none)
  | acc, cursor, resp :: rest =>
    if limit ≤ acc.length then ([], some (Except.ok acc))
    else
      let req := Req.getFollows actor cursor
      match resp with
      | Except.error e => ([req], some (Except.error e))
      | Except.ok data =>
        let follows := data.follows.getD []
        if follows.isEmpty then ([req], some (Except.ok acc))
        else
          let c2 := data.cursor
          let pairs := follows.map (nonMutualCheck profiles)
          let acc2 := pushChecks limit acc (pairs.map Prod.snd)
          if jsStrFalsy c2 then
            (req :: pairs.map Prod.fst, some (Except.ok acc2))
          else
            let next := nonMutualLoop profiles actor limit acc2 c2 rest
            (req :: pairs.map Prod.fst ++ next.1, next.2)

/-- Embedding of `BskyClient.getNonMutualFollows`. -/
def getNonMutualFollows (st : BskyState) (limit : Nat)
    (profiles : String → Except JsError ProfileData)
    (resps : List (Except JsError FollowsResp)) :
    List Req × Option (Except JsError (List FollowUser)) :=
  if jsStrFalsy st.session then
    ([], some (Except.error (JsError.jsError "Not logged in.")))
  else
    nonMutualLoop profiles (st.session.getD "") limit [] none resps

/-- Embedding of `BskyClient.replyToPost`. The source performs no session
check; it immediately fetches the thread of `parentUri`. `now` stands for
`new Date().toISOString()`. -/
def replyToPost (st : BskyState) (text : String) (parentUri : String) (now : String)
    (threadResp : Except JsError ThreadResp) (postResp : Except JsError PostResult) :
    List Req × Except JsError PostResult :=
  let _ := st
  match threadResp with
  | Except.error e => ([Req.getPostThread parentUri], Except.error e)
  | Except.ok data =>
    match data.thread.bind ThreadView.post with
    | none => ([Req.getPostThread parentUri], Except.error (JsError.jsError "Parent post not found"))
    | some parent =>
      let replyRecord : FeedPostRecord :=
        { text := text
          createdAt := now
          reply := some
            { root := { cid := parent.cid, uri := parent.uri }
              parent := { cid := parent.cid, uri := parent.uri } }
          embedImages := none }
      ([Req.getPostThread parentUri, Req.post (PostRecord.feedPost replyRecord)], postResp)

/-- The `Promise.all` of image uploads in `newPost`: every upload is
started, and a rejection rejects the join. Which rejection wins is timing
dependent in JS; the model settles on the first failing URL in list
order. -/
def uploadAll (blobs : String → Except JsError String) :
    List String → Except JsError (List UploadedImage)
  | [] => Except.ok []
  | url :: rest =>
    match blobs url with
    | Except.error e => Except.error e
    | Except.ok blob => (uploadAll blobs rest).map ({ alt := "Image", image := blob } :: ·)

/-- Embedding of `BskyClient.newPost`. -/
def newPost (st : BskyState) (text : String) (imageUrls : List String) (now : String)
    (blobs : String → Except JsError String) (postResp : Except JsError PostResult) :
    List Req × Except JsError PostResult :=
  if jsStrFalsy st.session then ([], Except.error (JsError.jsError "Not logged in."))
  else
    let record : FeedPostRecord :=
      { text := text, createdAt := now, reply := none, embedImages := none }
    if imageUrls.isEmpty then
      ([Req.post (PostRecord.feedPost record)], postResp)
    else
      let uploadReqs := imageUrls.map Req.uploadBlob
      match uploadAll blobs imageUrls with
      | Except.error e => (uploadReqs, Except.error e)
      | Except.ok embeds =>
        let record2 := { record with embedImages := some embeds }
        (uploadReqs ++ [Req.post (PostRecord.feedPost record2)], postResp)

/-- Embedding of `BskyClient.likePost`. -/
def likePost (st : BskyState) (uri : String) (cid : String) (now : String)
    (postResp : Except JsError PostResult) : List Req × Except JsError PostResult :=
  if jsStrFalsy st.session then ([], Except.error (JsError.jsError "Not logged in."))
  else
    let likeRecord : LikeRecord := { subjectUri := uri, subjectCid := cid, createdAt := now }
    ([Req.post (PostRecord.like likeRecord)], postResp)

end BskyClient

--- Reddit client ---

/-- The fields of `item.data` that `RedditClient.parseFeedItem` reads. -/
structure RedditPostData where
  name : Option String
  url : Option String
  subreddit : Option String
  subreddit_id : Option String
  author : Option String
  author_fullname : Option String
  title : Option String
  selftext : Option String
  num_comments : Option Int
  ups : Option Int
  downs : Option Int
  score : Option Int
  created_utc : Option Int
  deriving Repr, DecidableEq

/-- One element of `res.data.data.children`. -/
structure RedditChild where
  data : Option RedditPostData
  deriving Repr, DecidableEq

/-- The parsed Reddit post. `createdAt` models
`new Date(post.created_utc * 1000)` by its millisecond value; `none`
stands for the Invalid Date produced from an absent `created_utc`. -/
structure RedditPost where
  id : Option String
  url : Option String
  subreddit : Option String
  subredditId : Option String
  author : Option String
  authorId : Option String
  title : Option String
  text : Option String
  comments : Option Int
  upvotes : Option Int
  downvotes : Option Int
  score : Option Int
  createdAt : Option Int
  deriving Repr, DecidableEq

/-- `res.data.data` of a Reddit feed request. -/
structure RedditListing where
  children : List RedditChild
  deriving Repr, DecidableEq

/-- The Reddit client state: `this.token` and `this.axios` are both set
only by `login()`; before login `this.axios` is `undefined`. -/
structure RedditState where
  token : Option String
  axios : Option Unit
  deriving Repr, DecidableEq

namespace RedditClient

/-- Embedding of `RedditClient.parseFeedItem` (static). The source reads
`item.data` into `post` and immediately dereferences `post.name`, so a
missing payload throws a TypeError. -/
def parseFeedItem (item : RedditChild) : Except JsError RedditPost :=
  match item.data with
  | none => Except.error JsError.typeError
  | some post =>
    Except.ok
      { id := post.name
        url := post.url
        subreddit := post.subreddit
        subredditId := post.subreddit_id
        author := post.author
        authorId := post.author_fullname
        title := post.title
        text := post.selftext
        comments := post.num_comments
        upvotes := post.ups
        downvotes := post.downs
        score := post.score
        createdAt := post.created_utc.map (· * 1000) }

/-- Embedding of `RedditClient.getHomeFeed`. `world` maps a request path to
the listing the provider returns (or a thrown transport error). The `.map`
over the children throws as soon as one child lacks a payload, which the
Except-valued `mapM` reproduces. -/
def getHomeFeed (st : RedditState) (limit : Nat) (sort : String)
    (world : String → Except JsError RedditListing) :
    List Req × Except JsError (List RedditPost) :=
  if !(["best", "hot", "new"].contains sort) then
    ([], Except.error (JsError.jsError "Invalid sort, available values: best, hot, new"))
  else
    match st.axios with
    | none => ([], Except.error JsError.typeError)
    | some _ =>
      let path := "/" ++ sort ++ "?limit=" ++ toString limit
      match world path with
      | Except.error e => ([Req.httpGet path], Except.error e)
      | Except.ok listing => ([Req.httpGet path], listing.children.mapM parseFeedItem)

/-- Embedding of `RedditClient.getSubredditFeed`. Note that the request
path hardcodes the segment "hot"; the validated `sort` argument is unused
after validation. -/
def getSubredditFeed (st : RedditState) (subreddit : String) (limit : Nat) (sort : String)
    (world : String → Except JsError RedditListing) :
    List Req × Except JsError (List RedditPost) :=
  if !(["top", "hot", "new", "controversial"].contains sort) then
    ([], Except.error (JsError.jsError "Invalid sort, available values: top, hot, new, controversial"))
  else
    match st.axios with
    | none => ([], Except.error JsError.typeError)
    | some _ =>
      let path := "/r/" ++ subreddit ++ "/hot?limit=" ++ toString limit
      match world path with
      | Except.error e => ([Req.httpGet path], Except.error e)
      | Except.ok listing => ([Req.httpGet path], listing.children.mapM parseFeedItem)

end RedditClient

--- Helpers for stating properties ---

/-- All follow entries delivered across a sequence of follow pages. -/
def pagesUsers (pages : List FollowsResp) : List FollowUser :=
  pages.flatMap fun p => p.follows.getD []

/-- Whether the profile lookup of a followed user reports a back-follow
(the `!!profile.viewer?.followedBy` test). On a failed lookup the value is
irrelevant to the claims that use it; it is set to `true` (excluded). -/
def followedBackBy (profiles : String → Except JsError ProfileData) (u : FollowUser) : Bool :=
  match profiles u.did with
  | Except.ok prof => jsTruthyStr (prof.viewer.bind BskyViewer.followedBy)
  | Except.error _ => true

/-- A follow-page sequence in which pagination proceeds through every page
and exhausts at the last one: every page but the last carries a truthy
cursor, and the last page carries a falsy one. -/
def wellCursored : List FollowsResp → Bool
  | [] => true
  | [p] => jsStrFalsy p.cursor
  | p :: rest => jsTruthyStr p.cursor && wellCursored rest

--- Concrete fixtures used by witnesses and counterexamples ---

/-- A plain post view (no reply, no embed). -/
def exPostView : BskyPostView :=
  { uri := some "at://did:plc:x/app.bsky.feed.post/abc"
    cid := some "cid1"
    author := some
      { did := some "did:me", handle := some "al.bsky.social"
        displayName := none, avatar := none }
    record := some
      { text := some "hello", createdAt := some "2024-01-01T00:00:00.000Z", reply := none }
    embed := none }

/-- A plain feed item wrapping `exPostView`. -/
def exItemPlain : BskyFeedItem := { post := some exPostView, reply := none, reason := none }

/-- The canonical post `parseFeedItem` produces from `exItemPlain`. -/
def exParsedPlain : ParsedPost :=
  { root := exItemPlain
    type := "post"
    handle := "al.bsky.social"
    displayName := ""
    avatar := ""
    text := "hello"
    createdAt := "2024-01-01T00:00:00.000Z"
    date := some "2024-01-01T00:00:00.000Z"
    uri := "at://did:plc:x/app.bsky.feed.post/abc"
    cid := "cid1"
    url := "https://bsky.app/profile/al.bsky.social/post/abc"
    replyTo := none
    images := [], externals := [] }

/-- A post view that is simultaneously reply-shaped (its record carries a
reply-parent reference) and quote-shaped (a record embed). -/
def exPostViewReplyQuote : BskyPostView :=
  { exPostView with
    record := some
      { text := some "t", createdAt := none
        reply := some
          { root := some { cid := some "cr", uri := some "ur" }
            parent := some { cid := some "cp", uri := some "up" } } }
    embed := some
      { typeTag := some "app.bsky.embed.record#view"
        images := none, external := none, media := none } }

/-- A feed item whose envelope marks a repost of a post that is itself both
reply-shaped and quote-shaped. -/
def exItemRepostReplyQuote : BskyFeedItem :=
  { post := some exPostViewReplyQuote
    reply := none
    reason := some { typeTag := some "app.bsky.feed.defs#reasonRepost" } }

/-- A feed page holding three plain items and a further cursor: fetching it
with target 2 overshoots the target. -/
def exPage3 : FeedResp :=
  { feed := some [exItemPlain, exItemPlain, exItemPlain], cursor := some "c1" }

/-- A follow entry with the given did and no flags assigned yet. -/
def exUser (d : String) : FollowUser :=
  { did := d, handle := none, followsMe := none, iFollow := none }

/-- A profile view whose viewer block carries the given `followedBy`. -/
def exProfileOf (followedBy : Option String) : ProfileData :=
  { did := none, handle := none, displayName := none, description := none
    avatar := none, banner := none, followersCount := none, followsCount := none
    postsCount := none, viewer := some { followedBy := followedBy, following := none } }

/-- A profile oracle: "b" follows back, "c" fails, everyone else does not
follow back. -/
def exProfiles : String → Except JsError ProfileData
  | "b" => Except.ok (exProfileOf (some "at://did:plc:b/follow/1"))
  | "c" => Except.error (JsError.jsError "boom")
  | _ => Except.ok (exProfileOf none)

/-- Two follow pages: users a and b with a continuation cursor, then user d
with no cursor. -/
def exFollowPages : List FollowsResp :=
  [ { follows := some [exUser "a", exUser "b"], cursor := some "cur1" }
  , { follows := some [exUser "d"], cursor := none } ]

/-- A resolved thread response around a parent post. -/
def exThreadResp : ThreadResp :=
  { thread := some
      { post := some
          { cid := some "cidParent", uri := some "at://did:plc:p/app.bsky.feed.post/1" } } }

/-- The result the provider returns for a successful record creation. -/
def exPostResult : PostResult := { uri := some "at://did:plc:me/app.bsky.feed.post/9", cid := some "cidNew" }

--- Theorems ---

/-- C2 counterexample: the Reddit `parseFeedItem` applied to an item with
no post payload throws a TypeError (the embedding returns `Except.error`),
so the claim that both normalizer variants return the null sentinel and
never throw is false for the Reddit variant at this input. -/
theorem c2_counterexample :
    RedditClient.parseFeedItem { data := none } = Except.error JsError.typeError ∧
    (RedditClient.parseFeedItem { data := none }).isOk = false := by
  exact ⟨rfl, rfl⟩

/-- C2 (amended): for every raw feed item lacking a post payload, the
Bluesky `parseFeedItem` returns the invalid sentinel (null) and never
throws, while the Reddit `parseFeedItem` throws a TypeError (it
dereferences the missing payload unconditionally). -/
theorem c2_missing_payload_amended :
    (∀ item : BskyFeedItem, item.post = none → BskyClient.parseFeedItem item = none) ∧
    (∀ item : RedditChild, item.data = none →
      RedditClient.parseFeedItem item = Except.error JsError.typeError) := by
  constructor
  · intro item h
    simp [BskyClient.parseFeedItem, h]
  · intro item h
    simp [RedditClient.parseFeedItem, h]

/-- C2 witness: both amended branches hold at concrete payload-free items. -/
theorem c2_witness :
    ({ post := none, reply := none, reason := none } : BskyFeedItem).post = none ∧
    BskyClient.parseFeedItem { post := none, reply := none, reason := none } = none ∧
    ({ data := none } : RedditChild).data = none ∧
    RedditClient.parseFeedItem { data := none } = Except.error JsError.typeError :=
  ⟨rfl, c2_missing_payload_amended.1 _ rfl, rfl, c2_missing_payload_amended.2 _ rfl⟩

/-- C3: `parseFeedItem` classifies in fixed priority order: a repost
annotation on the envelope wins regardless of the record and embed shape;
otherwise a reply-parent reference yields "reply"; otherwise a record or
record-with-media embed yields "quote"; otherwise "post". -/
theorem c3_type_priority (item : BskyFeedItem) (parsed : ParsedPost)
    (h : BskyClient.parseFeedItem item = some parsed) :
    ((item.reason.bind BskyReason.typeTag) = some "app.bsky.feed.defs#reasonRepost" →
      parsed.type = "repost") ∧
    ((item.reason.bind BskyReason.typeTag) ≠ some "app.bsky.feed.defs#reasonRepost" →
      (((item.post.bind BskyPostView.record).bind BskyRecord.reply).bind
          BskyRecordReply.parent).isSome = true →
      parsed.type = "reply") ∧
    ((item.reason.bind BskyReason.typeTag) ≠ some "app.bsky.feed.defs#reasonRepost" →
      (((item.post.bind BskyPostView.record).bind BskyRecord.reply).bind
          BskyRecordReply.parent).isSome = false →
      ((item.post.bind BskyPostView.embed).bind BskyEmbed.typeTag =
          some "app.bsky.embed.record#view" ∨
        (item.post.bind BskyPostView.embed).bind BskyEmbed.typeTag =
          some "app.bsky.embed.recordWithMedia#view") →
      parsed.type = "quote") ∧
    ((item.reason.bind BskyReason.typeTag) ≠ some "app.bsky.feed.defs#reasonRepost" →
      (((item.post.bind BskyPostView.record).bind BskyRecord.reply).bind
          BskyRecordReply.parent).isSome = false →
      (item.post.bind BskyPostView.embed).bind BskyEmbed.typeTag ≠
        some "app.bsky.embed.record#view" →
      (item.post.bind BskyPostView.embed).bind BskyEmbed.typeTag ≠
        some "app.bsky.embed.recordWithMedia#view" →
      parsed.type = "post") := by
  cases hp : item.post with
  | none => simp [BskyClient.parseFeedItem, hp] at h
  | some post =>
    simp only [BskyClient.parseFeedItem, hp] at h
    have hparsed := (Option.some.inj h).symm
    refine ⟨?_, ?_, ?_, ?_⟩
    · intro h1
      rw [hparsed]
      simp [h1]
    · intro h1 h2
      rw [hparsed]
      simp only [hp, Option.some_bind] at h2
      simp [h1, h2]
    · intro h1 h2 h3
      rw [hparsed]
      simp only [hp, Option.some_bind] at h2 h3
      simp [h1, h2, h3]
    · intro h1 h2 h3 h4
      rw [hparsed]
      simp only [hp, Option.some_bind] at h2 h3 h4
      simp [h1, h2, h3, h4]

/-- C3 witness: a concrete item marked as a repost whose underlying record
also carries a reply-parent reference and a record embed classifies as
"repost". -/
theorem c3_witness :
    (exItemRepostReplyQuote.reason.bind BskyReason.typeTag) =
      some "app.bsky.feed.defs#reasonRepost" ∧
    (((exItemRepostReplyQuote.post.bind BskyPostView.record).bind BskyRecord.reply).bind
        BskyRecordReply.parent).isSome = true ∧
    (exItemRepostReplyQuote.post.bind BskyPostView.embed).bind BskyEmbed.typeTag =
      some "app.bsky.embed.record#view" ∧
    (BskyClient.parseFeedItem exItemRepostReplyQuote).map ParsedPost.type = some "repost" := by
  refine ⟨rfl, rfl, rfl, ?_⟩
  cases hp : BskyClient.parseFeedItem exItemRepostReplyQuote with
  | none =>
    have hs : (BskyClient.parseFeedItem exItemRepostReplyQuote).isSome = true := by decide
    rw [hp] at hs
    cases hs
  | some parsed =>
    have ht := (c3_type_priority exItemRepostReplyQuote parsed hp).1 rfl
    simp [ht]

/-- C5: `replyToPost` resolves the parent from the thread lookup first;
when the resolved thread has no post it fails with the not-found error, and
otherwise the submitted reply record references the resolved (cid, uri)
pair as both the thread root and the parent (no reply-chain walk). -/
theorem c5_reply_resolution (st : BskyState) (text parentUri now : String)
    (threadResp : Except JsError ThreadResp) (postResp : Except JsError PostResult) :
    (∀ d, threadResp = Except.ok d → d.thread.bind ThreadView.post = none →
      BskyClient.replyToPost st text parentUri now threadResp postResp =
        ([Req.getPostThread parentUri],
          Except.error (JsError.jsError "Parent post not found"))) ∧
    (∀ d p, threadResp = Except.ok d → d.thread.bind ThreadView.post = some p →
      BskyClient.replyToPost st text parentUri now threadResp postResp =
        ([Req.getPostThread parentUri,
          Req.post (PostRecord.feedPost
            { text := text
              createdAt := now
              reply := some
                { root := { cid := p.cid, uri := p.uri }
                  parent := { cid := p.cid, uri := p.uri } }
              embedImages := none })], postResp)) := by
  constructor
  · intro d hd hnone
    subst hd
    simp [BskyClient.replyToPost, hnone]
  · intro d p hd hsome
    subst hd
    simp [BskyClient.replyToPost, hsome]

/-- C5 witness: at a concrete resolved thread the reply record carries the
parent pair twice, and at a concrete empty thread the call fails. -/
theorem c5_witness :
    BskyClient.replyToPost ⟨some "did:me"⟩ "hi" "at://did:plc:p/app.bsky.feed.post/1"
        "2024-02-02T00:00:00.000Z" (Except.ok exThreadResp) (Except.ok exPostResult) =
      ([Req.getPostThread "at://did:plc:p/app.bsky.feed.post/1",
        Req.post (PostRecord.feedPost
          { text := "hi"
            createdAt := "2024-02-02T00:00:00.000Z"
            reply := some
              { root := { cid := some "cidParent"
                          uri := some "at://did:plc:p/app.bsky.feed.post/1" }
                parent := { cid := some "cidParent"
                            uri := some "at://did:plc:p/app.bsky.feed.post/1" } }
            embedImages := none })], Except.ok exPostResult) ∧
    BskyClient.replyToPost ⟨some "did:me"⟩ "hi" "at://gone" "2024-02-02T00:00:00.000Z"
        (Except.ok { thread := none }) (Except.ok exPostResult) =
      ([Req.getPostThread "at://gone"],
        Except.error (JsError.jsError "Parent post not found")) := by
  constructor
  · exact (c5_reply_resolution ⟨some "did:me"⟩ "hi" "at://did:plc:p/app.bsky.feed.post/1"
      "2024-02-02T00:00:00.000Z" (Except.ok exThreadResp) (Except.ok exPostResult)).2
      exThreadResp _ rfl rfl
  · exact (c5_reply_resolution ⟨some "did:me"⟩ "hi" "at://gone" "2024-02-02T00:00:00.000Z"
      (Except.ok { thread := none }) (Except.ok exPostResult)).1 { thread := none } rfl rfl

/-- C9: both Reddit feed reads validate `sort` against their fixed
enumerated sets and fail with the validation error, issuing no HTTP
request (empty trace), on any value outside the set. -/
theorem c9_sort_validation (st : RedditState) (subreddit : String) (limit : Nat)
    (sort : String) (world : String → Except JsError RedditListing) :
    (sort ∉ (["best", "hot", "new"] : List String) →
      RedditClient.getHomeFeed st limit sort world =
        ([], Except.error (JsError.jsError "Invalid sort, available values: best, hot, new"))) ∧
    (sort ∉ (["top", "hot", "new", "controversial"] : List String) →
      RedditClient.getSubredditFeed st subreddit limit sort world =
        ([], Except.error
          (JsError.jsError "Invalid sort, available values: top, hot, new, controversial"))) := by
  constructor
  · intro h
    simp [RedditClient.getHomeFeed, h]
  · intro h
    simp [RedditClient.getSubredditFeed, h]

/-- C9 witness: the sort value "bogus" is rejected by both reads with the
validation error and an empty request trace. -/
theorem c9_witness :
    RedditClient.getHomeFeed ⟨some "tok", some ()⟩ 10 "bogus"
        (fun _ => Except.ok { children := [] }) =
      ([], Except.error (JsError.jsError "Invalid sort, available values: best, hot, new")) ∧
    RedditClient.getSubredditFeed ⟨some "tok", some ()⟩ "lean" 10 "bogus"
        (fun _ => Except.ok { children := [] }) =
      ([], Except.error
        (JsError.jsError "Invalid sort, available values: top, hot, new, controversial")) :=
  ⟨(c9_sort_validation ⟨some "tok", some ()⟩ "lean" 10 "bogus"
      (fun _ => Except.ok { children := [] })).1 (by decide),
   (c9_sort_validation ⟨some "tok", some ()⟩ "lean" 10 "bogus"
      (fun _ => Except.ok { children := [] })).2 (by decide)⟩

/-- C10: for any two valid sort values, `getSubredditFeed` behaves
identically, and the single request it issues targets the literal path
"/r/{subreddit}/hot?limit={limit}" regardless of the sort argument. -/
theorem c10_sort_ignored (st : RedditState) (subreddit : String) (limit : Nat)
    (s1 s2 : String) (world : String → Except JsError RedditListing)
    (h1 : s1 ∈ (["top", "hot", "new", "controversial"] : List String))
    (h2 : s2 ∈ (["top", "hot", "new", "controversial"] : List String)) :
    RedditClient.getSubredditFeed st subreddit limit s1 world =
      RedditClient.getSubredditFeed st subreddit limit s2 world ∧
    (∀ a, st.axios = some a →
      (RedditClient.getSubredditFeed st subreddit limit s1 world).1 =
        [Req.httpGet ("/r/" ++ subreddit ++ "/hot?limit=" ++ toString limit)]) := by
  constructor
  · simp [RedditClient.getSubredditFeed, h1, h2]
  · intro a ha
    cases hw : world ("/r/" ++ subreddit ++ "/hot?limit=" ++ toString limit) with
    | error e => simp [RedditClient.getSubredditFeed, h1, ha, hw]
    | ok listing => simp [RedditClient.getSubredditFeed, h1, ha, hw]

/-- C10 witness: with sorts "top" and "controversial" the subreddit read is
the same operation, and the issued path is the hot feed of the
subreddit. -/
theorem c10_witness :
    RedditClient.getSubredditFeed ⟨some "tok", some ()⟩ "lean" 5 "top"
        (fun _ => Except.ok { children := [] }) =
      RedditClient.getSubredditFeed ⟨some "tok", some ()⟩ "lean" 5 "controversial"
        (fun _ => Except.ok { children := [] }) ∧
    (RedditClient.getSubredditFeed ⟨some "tok", some ()⟩ "lean" 5 "top"
        (fun _ => Except.ok { children := [] })).1 =
      [Req.httpGet "/r/lean/hot?limit=5"] :=
  ⟨(c10_sort_ignored ⟨some "tok", some ()⟩ "lean" 5 "top" "controversial"
      (fun _ => Except.ok { children := [] }) (by decide) (by decide)).1,
   (c10_sort_ignored ⟨some "tok", some ()⟩ "lean" 5 "top" "controversial"
      (fun _ => Except.ok { children := [] }) (by decide) (by decide)).2 () rfl⟩

/-- Helper: whatever the first response is, a feed loop that still needs
items issues its page fetch first. -/
theorem feedLoop_head (keep : BskyFeedItem → Option ParsedPost) (mkReq : Option String → Req)
    (limit : Nat) (acc : List ParsedPost) (cursor : Option String)
    (r : Except JsError FeedResp) (rest : List (Except JsError FeedResp))
    (h : acc.length < limit) :
    ((BskyClient.feedLoop keep mkReq limit acc cursor (r :: rest)).1).head? =
      some (mkReq cursor) := by
  have hnle : ¬ limit ≤ acc.length := by omega
  cases r with
  | error e => simp [BskyClient.feedLoop, hnle]
  | ok data =>
    simp only [BskyClient.feedLoop]
    rw [if_neg hnle]
    split <;> simp

/-- C1 counterexample: an unauthenticated client (no session) calling
`replyToPost` issues network requests — the thread lookup and then the
record creation — instead of failing with an authentication error before
any network call. -/
theorem c1_counterexample :
    (BskyClient.replyToPost ⟨none⟩ "hello" "at://did:plc:p/app.bsky.feed.post/1"
        "2024-02-02T00:00:00.000Z" (Except.ok exThreadResp) (Except.ok exPostResult)).1 =
      [Req.getPostThread "at://did:plc:p/app.bsky.feed.post/1",
       Req.post (PostRecord.feedPost
         { text := "hello"
           createdAt := "2024-02-02T00:00:00.000Z"
           reply := some
             { root := { cid := some "cidParent"
                         uri := some "at://did:plc:p/app.bsky.feed.post/1" }
               parent := { cid := some "cidParent"
                           uri := some "at://did:plc:p/app.bsky.feed.post/1" } }
           embedImages := none })] ∧
    (BskyClient.replyToPost ⟨none⟩ "hello" "at://did:plc:p/app.bsky.feed.post/1"
        "2024-02-02T00:00:00.000Z" (Except.ok exThreadResp) (Except.ok exPostResult)).1 ≠
      [] := by
  exact ⟨rfl, by decide⟩

/-- C1 (amended): the operations that guard on the session — `getTimeline`,
`getNonMutualFollows`, `newPost`, `likePost`, and the handle-taking reads
`getProfilePosts` / `getProfile` / `getFollows` / `getFollowers` when no
handle is supplied — reject an unauthenticated call with the corresponding
error before any network request (empty trace). But `searchUsers` and
`replyToPost` perform no session check and issue their first network
request even when unauthenticated, the handle-taking reads proceed to the
network when an explicit handle is supplied, and the unauthenticated
Reddit reads fail before any request only with a TypeError (the missing
axios instance), not an authentication error. -/
theorem c1_auth_gating_amended :
    (∀ tp limit includeSelf resps,
      BskyClient.getTimeline ⟨none⟩ tp limit includeSelf resps =
        ([], some (Except.error
          (JsError.jsError "You must be logged in to use getTimeline()")))) ∧
    (∀ limit profiles resps,
      BskyClient.getNonMutualFollows ⟨none⟩ limit profiles resps =
        ([], some (Except.error (JsError.jsError "Not logged in.")))) ∧
    (∀ text imageUrls now blobs postResp,
      BskyClient.newPost ⟨none⟩ text imageUrls now blobs postResp =
        ([], Except.error (JsError.jsError "Not logged in."))) ∧
    (∀ uri cid now postResp,
      BskyClient.likePost ⟨none⟩ uri cid now postResp =
        ([], Except.error (JsError.jsError "Not logged in."))) ∧
    (∀ tp limit resps,
      BskyClient.getProfilePosts ⟨none⟩ none tp limit resps =
        ([], some (Except.error (JsError.jsError "No handle or logged-in user found.")))) ∧
    (∀ resp,
      BskyClient.getProfile ⟨none⟩ none resp =
        ([], Except.error (JsError.jsError "No handle or logged-in user found."))) ∧
    (∀ limit profiles resps,
      BskyClient.getFollows ⟨none⟩ none limit profiles resps =
        ([], some (Except.error (JsError.jsError "No handle or logged-in user found.")))) ∧
    (∀ limit profiles resps,
      BskyClient.getFollowers ⟨none⟩ none limit profiles resps =
        ([], some (Except.error (JsError.jsError "No handle or logged-in user found.")))) ∧
    (∀ st query limit resp,
      (BskyClient.searchUsers st query limit resp).1 = [Req.searchActors query limit]) ∧
    (∀ st text parentUri now threadResp postResp,
      (BskyClient.replyToPost st text parentUri now threadResp postResp).1.head? =
        some (Req.getPostThread parentUri)) ∧
    (∀ tp limit r rest,
      (BskyClient.getProfilePosts ⟨none⟩ (some "alice.bsky.social") tp (limit + 1)
          (r :: rest)).1.head? = some (Req.getAuthorFeed "alice.bsky.social" none)) ∧
    (∀ limit sort world,
      (RedditClient.getHomeFeed ⟨none, none⟩ limit sort world).1 = []) ∧
    (∀ limit world,
      RedditClient.getHomeFeed ⟨none, none⟩ limit "best" world =
        ([], Except.error JsError.typeError)) ∧
    (∀ subreddit limit world,
      RedditClient.getSubredditFeed ⟨none, none⟩ subreddit limit "hot" world =
        ([], Except.error JsError.typeError)) := by
  refine ⟨?_, ?_, ?_, ?_, ?_, ?_, ?_, ?_, ?_, ?_, ?_, ?_, ?_, ?_⟩
  · intro tp limit includeSelf resps
    simp [BskyClient.getTimeline, jsStrFalsy]
  · intro limit profiles resps
    simp [BskyClient.getNonMutualFollows, jsStrFalsy]
  · intro text imageUrls now blobs postResp
    simp [BskyClient.newPost, jsStrFalsy]
  · intro uri cid now postResp
    simp [BskyClient.likePost, jsStrFalsy]
  · intro tp limit resps
    simp [BskyClient.getProfilePosts, jsOrStr, jsStrFalsy]
  · intro resp
    simp [BskyClient.getProfile, jsOrStr, jsStrFalsy]
  · intro limit profiles resps
    simp [BskyClient.getFollows, jsOrStr, jsStrFalsy]
  · intro limit profiles resps
    simp [BskyClient.getFollowers, jsOrStr, jsStrFalsy]
  · intro st query limit resp
    cases resp <;> simp [BskyClient.searchUsers]
  · intro st text parentUri now threadResp postResp
    cases threadResp with
    | error e => simp [BskyClient.replyToPost]
    | ok d =>
      cases hb : d.thread.bind ThreadView.post <;>
        simp [BskyClient.replyToPost, hb]
  · intro tp limit r rest
    have h0 : ([] : List ParsedPost).length < limit + 1 := by simp
    simpa [BskyClient.getProfilePosts, jsOrStr, jsStrFalsy] using
      feedLoop_head (BskyClient.profileKeep tp) (Req.getAuthorFeed "alice.bsky.social")
        (limit + 1) [] none r rest h0
  · intro limit sort world
    simp only [RedditClient.getHomeFeed]
    split <;> rfl
  · intro limit world
    simp [RedditClient.getHomeFeed]
  · intro subreddit limit world
    simp [RedditClient.getSubredditFeed]

/-- C8 counterexample: when the very first page fetch of `getProfilePosts`
throws, the operation propagates the exception instead of returning the
empty accumulation that the claim predicts. -/
theorem c8_counterexample :
    (BskyClient.getProfilePosts ⟨some "did:me"⟩ none "post" 10
        [Except.error (JsError.jsError "network down")]).2 =
      some (Except.error (JsError.jsError "network down")) ∧
    some (Except.error (JsError.jsError "network down")) ≠
      (some (Except.ok []) : Option (Except JsError (List ParsedPost))) := by
  exact ⟨rfl, by simp⟩

/-- C8 (amended): when a page fetch throws, every paginated collection
loop propagates the exception to the caller — discarding the items
accumulated so far — after issuing exactly that one fetch (no retry, no
further consumption of responses); an empty first page still returns the
empty accumulation. -/
theorem c8_error_propagation_amended :
    (∀ keep mkReq limit (acc : List ParsedPost) cursor e rest, acc.length < limit →
      BskyClient.feedLoop keep mkReq limit acc cursor (Except.error e :: rest) =
        ([mkReq cursor], some (Except.error e))) ∧
    (∀ profiles actor limit (follows : List FollowUser) cursor e rest,
      follows.length < limit →
      BskyClient.followsLoop profiles actor limit follows cursor
          (Except.error e :: rest) =
        ([Req.getFollows actor cursor], some (Except.error e))) ∧
    (∀ profiles actor limit (followers : List FollowUser) cursor e rest,
      followers.length < limit →
      BskyClient.followersLoop profiles actor limit followers cursor
          (Except.error e :: rest) =
        ([Req.getFollowers actor cursor], some (Except.error e))) ∧
    (∀ profiles actor limit (acc : List FollowUser) cursor e rest, acc.length < limit →
      BskyClient.nonMutualLoop profiles actor limit acc cursor
          (Except.error e :: rest) =
        ([Req.getFollows actor cursor], some (Except.error e))) ∧
    (∀ keep mkReq limit cursor c2 rest, 0 < limit →
      BskyClient.feedLoop keep mkReq limit [] cursor
          (Except.ok { feed := some [], cursor := c2 } :: rest) =
        ([mkReq cursor], some (Except.ok []))) := by
  refine ⟨?_, ?_, ?_, ?_, ?_⟩
  · intro keep mkReq limit acc cursor e rest h
    have hnle : ¬ limit ≤ acc.length := by omega
    simp [BskyClient.feedLoop, hnle]
  · intro profiles actor limit follows cursor e rest h
    have hnle : ¬ limit ≤ follows.length := by omega
    simp [BskyClient.followsLoop, hnle]
  · intro profiles actor limit followers cursor e rest h
    have hnle : ¬ limit ≤ followers.length := by omega
    simp [BskyClient.followersLoop, hnle]
  · intro profiles actor limit acc cursor e rest h
    have hnle : ¬ limit ≤ acc.length := by omega
    simp [BskyClient.nonMutualLoop, hnle]
  · intro keep mkReq limit cursor c2 rest h
    have hnle : ¬ limit ≤ ([] : List ParsedPost).length := by
      simp only [List.length_nil]
      omega
    simp [BskyClient.feedLoop, hnle, BskyClient.pushItems]
    omega

/-- C8 witness: each loop, one item short of a target of 10, propagates a
concrete network error from its fetch; and an empty first page yields the
empty result. -/
theorem c8_witness :
    BskyClient.feedLoop (BskyClient.profileKeep "post") (Req.getAuthorFeed "alice") 10
        [] none [Except.error (JsError.jsError "network down")] =
      ([Req.getAuthorFeed "alice" none],
        some (Except.error (JsError.jsError "network down"))) ∧
    BskyClient.followsLoop exProfiles "did:me" 10 [] none
        [Except.error (JsError.jsError "network down")] =
      ([Req.getFollows "did:me" none],
        some (Except.error (JsError.jsError "network down"))) ∧
    BskyClient.followersLoop exProfiles "did:me" 10 [] none
        [Except.error (JsError.jsError "network down")] =
      ([Req.getFollowers "did:me" none],
        some (Except.error (JsError.jsError "network down"))) ∧
    BskyClient.nonMutualLoop exProfiles "did:me" 10 [] none
        [Except.error (JsError.jsError "network down")] =
      ([Req.getFollows "did:me" none],
        some (Except.error (JsError.jsError "network down"))) ∧
    BskyClient.feedLoop (BskyClient.profileKeep "post") (Req.getAuthorFeed "alice") 10
        [] none [Except.ok { feed := some [], cursor := some "c" }] =
      ([Req.getAuthorFeed "alice" none], some (Except.ok [])) :=
  ⟨c8_error_propagation_amended.1 (BskyClient.profileKeep "post")
      (Req.getAuthorFeed "alice") 10 [] none (JsError.jsError "network down") []
      (by simp),
   c8_error_propagation_amended.2.1 exProfiles "did:me" 10 [] none
      (JsError.jsError "network down") [] (by simp),
   c8_error_propagation_amended.2.2.1 exProfiles "did:me" 10 [] none
      (JsError.jsError "network down") [] (by simp),
   c8_error_propagation_amended.2.2.2.1 exProfiles "did:me" 10 [] none
      (JsError.jsError "network down") [] (by simp),
   c8_error_propagation_amended.2.2.2.2 (BskyClient.profileKeep "post")
      (Req.getAuthorFeed "alice") 10 none (some "c") [] (by simp)⟩

/-- Helper: the page-level push loop never grows the accumulation past the
limit when it starts below it. -/
theorem pushItems_length_le (limit : Nat) (keep : BskyFeedItem → Option ParsedPost) :
    ∀ (items : List BskyFeedItem) (acc : List ParsedPost), acc.length < limit →
      (BskyClient.pushItems limit keep acc items).length ≤ limit := by
  intro items
  induction items with
  | nil =>
    intro acc h
    simpa [BskyClient.pushItems] using Nat.le_of_lt h
  | cons item rest ih =>
    intro acc h
    cases hk : keep item with
    | none =>
      simp only [BskyClient.pushItems, hk]
      exact ih acc h
    | some parsed =>
      simp only [BskyClient.pushItems, hk]
      have hlen : (acc ++ [parsed]).length = acc.length + 1 := by simp
      split
      · omega
      · exact ih (acc ++ [parsed]) (by omega)

/-- Helper: any normal return of the feed loop holds at most `limit`
items, provided the accumulation started within the limit. -/
theorem feedLoop_length_le (keep : BskyFeedItem → Option ParsedPost)
    (mkReq : Option String → Req) (limit : Nat) :
    ∀ (resps : List (Except JsError FeedResp)) (acc : List ParsedPost)
      (cursor : Option String) (l : List ParsedPost),
      acc.length ≤ limit →
      (BskyClient.feedLoop keep mkReq limit acc cursor resps).2 = some (Except.ok l) →
      l.length ≤ limit := by
  intro resps
  induction resps with
  | nil =>
    intro acc cursor l hle hout
    simp only [BskyClient.feedLoop] at hout
    split at hout
    · simp only [Option.some.injEq, Except.ok.injEq] at hout
      exact hout ▸ hle
    · simp at hout
  | cons resp rest ih =>
    intro acc cursor l hle hout
    simp only [BskyClient.feedLoop] at hout
    split at hout
    · simp only [Option.some.injEq, Except.ok.injEq] at hout
      exact hout ▸ hle
    · rename_i hlt
      cases resp with
      | error e => simp at hout
      | ok data =>
        dsimp only at hout
        split at hout
        · simp only [Option.some.injEq, Except.ok.injEq] at hout
          exact hout ▸ pushItems_length_le limit keep (data.feed.getD []) acc (by omega)
        · exact ih _ _ _ (pushItems_length_le limit keep (data.feed.getD []) acc (by omega))
            hout

/-- Helper: any normal return of the follows loop has length at most
`limit`, because every return slices with `take limit`. -/
theorem followsLoop_length_le (profiles : String → Except JsError ProfileData)
    (actor : String) (limit : Nat) :
    ∀ (resps : List (Except JsError FollowsResp)) (follows : List FollowUser)
      (cursor : Option String) (l : List FollowUser),
      (BskyClient.followsLoop profiles actor limit follows cursor resps).2 =
        some (Except.ok l) → l.length ≤ limit := by
  intro resps
  induction resps with
  | nil =>
    intro follows cursor l hout
    simp only [BskyClient.followsLoop] at hout
    split at hout
    · simp only [Option.some.injEq, Except.ok.injEq] at hout
      rw [← hout, List.length_take]
      omega
    · simp at hout
  | cons resp rest ih =>
    intro follows cursor l hout
    simp only [BskyClient.followsLoop] at hout
    split at hout
    · simp only [Option.some.injEq, Except.ok.injEq] at hout
      rw [← hout, List.length_take]
      omega
    · cases resp with
      | error e => simp at hout
      | ok data =>
        dsimp only at hout
        split at hout
        · simp at hout
        · rename_i tr annotated heq
          split at hout
          · simp only [Option.some.injEq, Except.ok.injEq] at hout
            rw [← hout, List.length_take]
            omega
          · exact ih _ _ _ hout

/-- Helper: any normal return of the followers loop has length at most
`limit`. -/
theorem followersLoop_length_le (profiles : String → Except JsError ProfileData)
    (actor : String) (limit : Nat) :
    ∀ (resps : List (Except JsError FollowersResp)) (followers : List FollowUser)
      (cursor : Option String) (l : List FollowUser),
      (BskyClient.followersLoop profiles actor limit followers cursor resps).2 =
        some (Except.ok l) → l.length ≤ limit := by
  intro resps
  induction resps with
  | nil =>
    intro followers cursor l hout
    simp only [BskyClient.followersLoop] at hout
    split at hout
    · simp only [Option.some.injEq, Except.ok.injEq] at hout
      rw [← hout, List.length_take]
      omega
    · simp at hout
  | cons resp rest ih =>
    intro followers cursor l hout
    simp only [BskyClient.followersLoop] at hout
    split at hout
    · simp only [Option.some.injEq, Except.ok.injEq] at hout
      rw [← hout, List.length_take]
      omega
    · cases resp with
      | error e => simp at hout
      | ok data =>
        dsimp only at hout
        split at hout
        · simp at hout
        · rename_i tr annotated heq
          split at hout
          · simp only [Option.some.injEq, Except.ok.injEq] at hout
            rw [← hout, List.length_take]
            omega
          · exact ih _ _ _ hout

/-- Helper: the fan-out push loop never grows the accumulation past the
limit when it starts below it. -/
theorem pushChecks_length_le (limit : Nat) :
    ∀ (checks : List (Option FollowUser)) (acc : List FollowUser), acc.length < limit →
      (BskyClient.pushChecks limit acc checks).length ≤ limit := by
  intro checks
  induction checks with
  | nil =>
    intro acc h
    simpa [BskyClient.pushChecks] using Nat.le_of_lt h
  | cons c rest ih =>
    intro acc h
    cases c with
    | none =>
      simp only [BskyClient.pushChecks]
      exact ih acc h
    | some u =>
      simp only [BskyClient.pushChecks]
      have hlen : (acc ++ [u]).length = acc.length + 1 := by simp
      split
      · omega
      · exact ih (acc ++ [u]) (by omega)

/-- Helper: any normal return of the non-mutual loop holds at most `limit`
entries, provided the accumulation started within the limit. -/
theorem nonMutualLoop_length_le (profiles : String → Except JsError ProfileData)
    (actor : String) (limit : Nat) :
    ∀ (resps : List (Except JsError FollowsResp)) (acc : List FollowUser)
      (cursor : Option String) (l : List FollowUser),
      acc.length ≤ limit →
      (BskyClient.nonMutualLoop profiles actor limit acc cursor resps).2 =
        some (Except.ok l) → l.length ≤ limit := by
  intro resps
  induction resps with
  | nil =>
    intro acc cursor l hle hout
    simp only [BskyClient.nonMutualLoop] at hout
    split at hout
    · simp only [Option.some.injEq, Except.ok.injEq] at hout
      exact hout ▸ hle
    · simp at hout
  | cons resp rest ih =>
    intro acc cursor l hle hout
    simp only [BskyClient.nonMutualLoop] at hout
    split at hout
    · simp only [Option.some.injEq, Except.ok.injEq] at hout
      exact hout ▸ hle
    · rename_i hlt
      cases resp with
      | error e => simp at hout
      | ok data =>
        dsimp only at hout
        split at hout
        · simp only [Option.some.injEq, Except.ok.injEq] at hout
          exact hout ▸ hle
        · split at hout
          · simp only [Option.some.injEq, Except.ok.injEq] at hout
            exact hout ▸ pushChecks_length_le limit _ acc (by omega)
          · exact ih _ _ _ (pushChecks_length_le limit _ acc (by omega)) hout

/-- C4: every paginated collection loop — getTimeline, getProfilePosts,
getFollows, getFollowers, getNonMutualFollows — returns at most the
requested target count, whatever pages the provider supplies, even when a
page overshoots the target. -/
theorem c4_limit_cap :
    (∀ st tp limit includeSelf resps l,
      (BskyClient.getTimeline st tp limit includeSelf resps).2 = some (Except.ok l) →
      l.length ≤ limit) ∧
    (∀ st handle tp limit resps l,
      (BskyClient.getProfilePosts st handle tp limit resps).2 = some (Except.ok l) →
      l.length ≤ limit) ∧
    (∀ st handle limit profiles resps l,
      (BskyClient.getFollows st handle limit profiles resps).2 = some (Except.ok l) →
      l.length ≤ limit) ∧
    (∀ st handle limit profiles resps l,
      (BskyClient.getFollowers st handle limit profiles resps).2 = some (Except.ok l) →
      l.length ≤ limit) ∧
    (∀ st limit profiles resps l,
      (BskyClient.getNonMutualFollows st limit profiles resps).2 = some (Except.ok l) →
      l.length ≤ limit) := by
  refine ⟨?_, ?_, ?_, ?_, ?_⟩
  · intro st tp limit includeSelf resps l hout
    simp only [BskyClient.getTimeline] at hout
    split at hout
    · simp at hout
    · exact feedLoop_length_le _ _ limit resps [] none l (by simp) hout
  · intro st handle tp limit resps l hout
    simp only [BskyClient.getProfilePosts] at hout
    split at hout
    · simp at hout
    · exact feedLoop_length_le _ _ limit resps [] none l (by simp) hout
  · intro st handle limit profiles resps l hout
    simp only [BskyClient.getFollows] at hout
    split at hout
    · simp at hout
    · exact followsLoop_length_le profiles _ limit resps [] none l hout
  · intro st handle limit profiles resps l hout
    simp only [BskyClient.getFollowers] at hout
    split at hout
    · simp at hout
    · exact followersLoop_length_le profiles _ limit resps [] none l hout
  · intro st limit profiles resps l hout
    simp only [BskyClient.getNonMutualFollows] at hout
    split at hout
    · simp at hout
    · exact nonMutualLoop_length_le profiles _ limit resps [] none l (by simp) hout

/-- C4 witness: concrete overshooting runs of all five collection loops
stay within their targets (a 3-item page against targets 2 and 1, a 2-entry
follow page against target 1, and the fan-out page against target 10). -/
theorem c4_witness :
    ([exParsedPlain, exParsedPlain] : List ParsedPost).length ≤ 2 ∧
    ([exParsedPlain] : List ParsedPost).length ≤ 1 ∧
    ([{ exUser "a" with followsMe := some false }] : List FollowUser).length ≤ 1 ∧
    ([{ exUser "a" with iFollow := some false }] : List FollowUser).length ≤ 1 ∧
    ([{ exUser "a" with followsMe := some false }] : List FollowUser).length ≤ 10 :=
  ⟨c4_limit_cap.1 ⟨some "did:me"⟩ none 2 true [Except.ok exPage3]
      [exParsedPlain, exParsedPlain] rfl,
   c4_limit_cap.2.1 ⟨some "did:me"⟩ none "post" 1 [Except.ok exPage3] [exParsedPlain] rfl,
   c4_limit_cap.2.2.1 ⟨some "did:me"⟩ none 1 exProfiles
      [Except.ok { follows := some [exUser "a", exUser "d"], cursor := none }]
      [{ exUser "a" with followsMe := some false }] rfl,
   c4_limit_cap.2.2.2.1 ⟨some "did:me"⟩ none 1 exProfiles
      [Except.ok { followers := some [exUser "a", exUser "d"], cursor := none }]
      [{ exUser "a" with iFollow := some false }] rfl,
   c4_limit_cap.2.2.2.2 ⟨some "did:me"⟩ 10 exProfiles
      [Except.ok { follows := some [exUser "a", exUser "b", exUser "c"], cursor := none }]
      [{ exUser "a" with followsMe := some false }] rfl⟩

/-- Helper: the fan-out push loop ignores a null result wherever it occurs
in the settled list. -/
theorem pushChecks_skip_none (limit : Nat) :
    ∀ (c1 c2 : List (Option FollowUser)) (acc : List FollowUser),
      BskyClient.pushChecks limit acc (c1 ++ none :: c2) =
        BskyClient.pushChecks limit acc (c1 ++ c2) := by
  intro c1
  induction c1 with
  | nil =>
    intro c2 acc
    simp only [List.nil_append, BskyClient.pushChecks]
  | cons c rest ih =>
    intro c2 acc
    cases c with
    | none =>
      simp only [List.cons_append, BskyClient.pushChecks]
      exact ih c2 acc
    | some u =>
      simp only [List.cons_append, BskyClient.pushChecks]
      split
      · rfl
      · exact ih c2 (acc ++ [u])

/-- C7: in the per-page fan-out of `getNonMutualFollows`, a failing profile
lookup settles that one branch to null: the failing entry is excluded, the
lookup request of every sibling is still issued, and the page-level push
over the settled results is as if the failing entry were absent — the
operation is not aborted. -/
theorem c7_fanout_isolation (profiles : String → Except JsError ProfileData)
    (limit : Nat) (acc : List FollowUser) (u : FollowUser) (l1 l2 : List FollowUser)
    (e : JsError) (hu : profiles u.did = Except.error e) :
    BskyClient.nonMutualCheck profiles u = (Req.getProfile u.did, none) ∧
    ((l1 ++ u :: l2).map (BskyClient.nonMutualCheck profiles)).map Prod.fst =
      (l1 ++ u :: l2).map (fun v => Req.getProfile v.did) ∧
    BskyClient.pushChecks limit acc
        (((l1 ++ u :: l2).map (BskyClient.nonMutualCheck profiles)).map Prod.snd) =
      BskyClient.pushChecks limit acc
        (((l1 ++ l2).map (BskyClient.nonMutualCheck profiles)).map Prod.snd) := by
  refine ⟨?_, ?_, ?_⟩
  · simp [BskyClient.nonMutualCheck, hu]
  · have hfst : (Prod.fst ∘ BskyClient.nonMutualCheck profiles) =
        fun v => Req.getProfile v.did := by
      funext v
      rfl
    simp only [List.map_append, List.map_cons, List.map_map, hfst]
    rfl
  · have hsplit : ((l1 ++ u :: l2).map (BskyClient.nonMutualCheck profiles)).map Prod.snd =
        ((l1.map (BskyClient.nonMutualCheck profiles)).map Prod.snd) ++ none ::
          ((l2.map (BskyClient.nonMutualCheck profiles)).map Prod.snd) := by
      simp [BskyClient.nonMutualCheck, hu]
    rw [hsplit, pushChecks_skip_none]
    simp

/-- C7 witness: with the failing did "c" between entries "a" and "d", the
failing entry is excluded while both siblings are looked up and pushed as
without it. -/
theorem c7_witness :
    BskyClient.nonMutualCheck exProfiles (exUser "c") = (Req.getProfile "c", none) ∧
    (([exUser "a"] ++ exUser "c" :: [exUser "d"]).map
        (BskyClient.nonMutualCheck exProfiles)).map Prod.fst =
      ([exUser "a"] ++ exUser "c" :: [exUser "d"]).map (fun v => Req.getProfile v.did) ∧
    BskyClient.pushChecks 10 []
        ((([exUser "a"] ++ exUser "c" :: [exUser "d"]).map
          (BskyClient.nonMutualCheck exProfiles)).map Prod.snd) =
      BskyClient.pushChecks 10 []
        ((([exUser "a"] ++ [exUser "d"]).map
          (BskyClient.nonMutualCheck exProfiles)).map Prod.snd) :=
  c7_fanout_isolation exProfiles 10 [] (exUser "c") [exUser "a"] [exUser "d"]
    (JsError.jsError "boom") rfl

/-- Helper: when the accumulated entries plus all non-null settled results
fit within the limit, the fan-out push loop appends them all. -/
theorem pushChecks_no_trunc (limit : Nat) :
    ∀ (checks : List (Option FollowUser)) (acc : List FollowUser),
      acc.length + (checks.filterMap id).length ≤ limit →
      BskyClient.pushChecks limit acc checks = acc ++ checks.filterMap id := by
  intro checks
  induction checks with
  | nil =>
    intro acc h
    simp [BskyClient.pushChecks]
  | cons c rest ih =>
    intro acc h
    cases c with
    | none =>
      have hc : List.filterMap id (none :: rest) = List.filterMap id rest := by simp
      rw [hc] at h
      simp only [BskyClient.pushChecks]
      rw [hc]
      exact ih acc h
    | some u =>
      have hc : List.filterMap id (some u :: rest) =
          u :: List.filterMap id rest := by simp
      rw [hc] at h
      simp only [BskyClient.pushChecks]
      rw [hc]
      have hlen : (acc ++ [u]).length = acc.length + 1 := by simp
      simp only [List.length_cons] at h
      split
      · rename_i hl
        have h0 : (rest.filterMap id).length = 0 := by omega
        have hnil : rest.filterMap id = [] := List.length_eq_zero.mp h0
        rw [hnil]
      · rename_i hl
        have hih : (acc ++ [u]).length + (rest.filterMap id).length ≤ limit := by omega
        rw [ih (acc ++ [u]) hih]
        simp

/-- Helper: when no lookup fails, the non-null settled results of one page
fan-out are exactly the entries whose back-reference is false, each flagged
with a false `followsMe`. -/
theorem nonMutualCheck_filterMap (profiles : String → Except JsError ProfileData) :
    ∀ (users : List FollowUser),
      (∀ u ∈ users, (profiles u.did).isOk = true) →
      (users.map (fun v => (BskyClient.nonMutualCheck profiles v).2)).filterMap id =
        (users.filter (fun v => !(followedBackBy profiles v))).map
          (fun v => { v with followsMe := some false }) := by
  intro users
  induction users with
  | nil =>
    intro _
    simp
  | cons u rest ih =>
    intro hok
    have hrest : ∀ v ∈ rest, (profiles v.did).isOk = true := by
      intro v hv
      exact hok v (List.mem_cons_of_mem u hv)
    have hu : (profiles u.did).isOk = true := hok u (List.mem_cons_self u rest)
    cases hp : profiles u.did with
    | error e =>
      rw [hp] at hu
      simp [Except.isOk, Except.toBool] at hu
    | ok prof =>
      have hb : followedBackBy profiles u =
          jsTruthyStr (prof.viewer.bind BskyViewer.followedBy) := by
        simp [followedBackBy, hp]
      cases hf : jsTruthyStr (prof.viewer.bind BskyViewer.followedBy) with
      | true =>
        have hcheck : (BskyClient.nonMutualCheck profiles u).2 = none := by
          simp [BskyClient.nonMutualCheck, hp, hf]
        have hfil : List.filter (fun v => !(followedBackBy profiles v)) (u :: rest) =
            List.filter (fun v => !(followedBackBy profiles v)) rest := by
          rw [List.filter_cons]
          simp [hb, hf]
        rw [List.map_cons, hcheck, hfil]
        have hc : List.filterMap id
            (none :: rest.map fun v => (BskyClient.nonMutualCheck profiles v).2) =
            List.filterMap id (rest.map fun v => (BskyClient.nonMutualCheck profiles v).2) := by
          simp
        rw [hc]
        exact ih hrest
      | false =>
        have hcheck : (BskyClient.nonMutualCheck profiles u).2 =
            some { u with followsMe := some false } := by
          simp [BskyClient.nonMutualCheck, hp, hf]
        have hfil : List.filter (fun v => !(followedBackBy profiles v)) (u :: rest) =
            u :: List.filter (fun v => !(followedBackBy profiles v)) rest := by
          rw [List.filter_cons]
          simp [hb, hf]
        rw [List.map_cons, hcheck, hfil, List.map_cons]
        have hc : List.filterMap id
            (some { u with followsMe := some false } ::
              rest.map fun v => (BskyClient.nonMutualCheck profiles v).2) =
            { u with followsMe := some false } ::
              List.filterMap id (rest.map fun v => (BskyClient.nonMutualCheck profiles v).2) := by
          simp
        rw [hc, ih hrest]

/-- Helper: over a nonempty, well-cursored page sequence with no failing
lookup, the non-mutual loop appends exactly the flagged non-mutual entries
of every page, provided the total stays below the limit. -/
theorem nonMutualLoop_exact (profiles : String → Except JsError ProfileData)
    (actor : String) (limit : Nat) :
    ∀ (pages : List FollowsResp) (acc : List FollowUser) (cursor : Option String),
      pages ≠ [] →
      (∀ p ∈ pages, p.follows.getD [] ≠ []) →
      (∀ u ∈ pagesUsers pages, (profiles u.did).isOk = true) →
      wellCursored pages = true →
      acc.length +
          ((pagesUsers pages).filter fun v => !(followedBackBy profiles v)).length <
        limit →
      (BskyClient.nonMutualLoop profiles actor limit acc cursor (pages.map Except.ok)).2 =
        some (Except.ok (acc ++
          ((pagesUsers pages).filter fun v => !(followedBackBy profiles v)).map
            fun v => { v with followsMe := some false })) := by
  intro pages
  induction pages with
  | nil =>
    intro acc cursor hne _ _ _ _
    exact absurd rfl hne
  | cons p rest ih =>
    intro acc cursor _ hnonempty hok hcur hlt
    have hpu : pagesUsers (p :: rest) = p.follows.getD [] ++ pagesUsers rest := by
      simp [pagesUsers]
    have hKsplit : (pagesUsers (p :: rest)).filter (fun v => !(followedBackBy profiles v)) =
        ((p.follows.getD []).filter fun v => !(followedBackBy profiles v)) ++
          ((pagesUsers rest).filter fun v => !(followedBackBy profiles v)) := by
      rw [hpu, List.filter_append]
    have hlenK : ((pagesUsers (p :: rest)).filter
          (fun v => !(followedBackBy profiles v))).length =
        ((p.follows.getD []).filter fun v => !(followedBackBy profiles v)).length +
          ((pagesUsers rest).filter fun v => !(followedBackBy profiles v)).length := by
      rw [hKsplit, List.length_append]
    have hokp : ∀ u ∈ p.follows.getD [], (profiles u.did).isOk = true := by
      intro u hu
      refine hok u ?_
      rw [hpu]
      exact List.mem_append_left _ hu
    have hnle : ¬ limit ≤ acc.length := by omega
    have hfe : (p.follows.getD []).isEmpty = false := by
      cases hfl : p.follows.getD [] with
      | nil => exact absurd hfl (hnonempty p (List.mem_cons_self p rest))
      | cons a as => rfl
    have hconv : ((p.follows.getD []).map (BskyClient.nonMutualCheck profiles)).map
          Prod.snd =
        (p.follows.getD []).map (fun v => (BskyClient.nonMutualCheck profiles v).2) := by
      rw [List.map_map]
      rfl
    have hacc2 : BskyClient.pushChecks limit acc
        (((p.follows.getD []).map (BskyClient.nonMutualCheck profiles)).map Prod.snd) =
        acc ++ ((p.follows.getD []).filter fun v => !(followedBackBy profiles v)).map
          (fun v => { v with followsMe := some false }) := by
      rw [hconv]
      have hfm := nonMutualCheck_filterMap profiles (p.follows.getD []) hokp
      rw [← hfm]
      refine pushChecks_no_trunc limit _ acc ?_
      rw [hfm, List.length_map]
      omega
    simp only [List.map_cons, BskyClient.nonMutualLoop]
    rw [if_neg hnle]
    cases rest with
    | nil =>
      have hcf : jsStrFalsy p.cursor = true := by
        simpa [wellCursored] using hcur
      simp only [hfe, Bool.false_eq_true, if_false, hcf, if_true, hacc2]
      rw [hpu]
      simp [pagesUsers]
    | cons q qs =>
      have hcs : jsTruthyStr p.cursor = true ∧ wellCursored (q :: qs) = true := by
        simpa [wellCursored] using hcur
      have hcf : jsStrFalsy p.cursor = false := by
        have := hcs.1
        simp only [jsTruthyStr, Bool.not_eq_true'] at this
        exact this
      have hmapped : (((p.follows.getD []).filter
            fun v => !(followedBackBy profiles v)).map
            fun v => { v with followsMe := some false }).length =
          ((p.follows.getD []).filter fun v => !(followedBackBy profiles v)).length :=
        List.length_map _ _
      have hih := ih
        (acc ++ ((p.follows.getD []).filter fun v => !(followedBackBy profiles v)).map
          (fun v => { v with followsMe := some false }))
        p.cursor (by simp)
        (by
          intro r hr
          exact hnonempty r (List.mem_cons_of_mem p hr))
        (by
          intro u hu
          refine hok u ?_
          rw [hpu]
          exact List.mem_append_right _ hu)
        hcs.2
        (by
          rw [List.length_append, hmapped]
          omega)
      simp only [hfe, Bool.false_eq_true, if_false, hcf, if_true, hacc2, hih]
      rw [hKsplit, List.map_append, List.append_assoc]

/-- C6: for `getNonMutualFollows` with limit N over an exhausting follow
list holding exactly K entries whose back-reference is false, with K < N
and no failing lookup, the result is exactly those K entries flagged
`followsMe: false` — in particular its length is K and every returned
entry carries a false flag. -/
theorem c6_non_mutual_exact (actor : String) (limit : Nat)
    (profiles : String → Except JsError ProfileData) (pages : List FollowsResp)
    (hactor : actor ≠ "")
    (hne : pages ≠ [])
    (hnonempty : ∀ p ∈ pages, p.follows.getD [] ≠ [])
    (hok : ∀ u ∈ pagesUsers pages, (profiles u.did).isOk = true)
    (hcur : wellCursored pages = true)
    (hK : ((pagesUsers pages).filter fun v => !(followedBackBy profiles v)).length <
      limit) :
    (BskyClient.getNonMutualFollows ⟨some actor⟩ limit profiles
        (pages.map Except.ok)).2 =
      some (Except.ok
        (((pagesUsers pages).filter fun v => !(followedBackBy profiles v)).map
          fun v => { v with followsMe := some false })) ∧
    (((pagesUsers pages).filter fun v => !(followedBackBy profiles v)).map
        fun v => { v with followsMe := some false }).length =
      ((pagesUsers pages).filter fun v => !(followedBackBy profiles v)).length ∧
    ∀ v ∈ ((pagesUsers pages).filter fun v => !(followedBackBy profiles v)).map
        fun v => { v with followsMe := some false }, v.followsMe = some false := by
  refine ⟨?_, List.length_map _ _, ?_⟩
  · have hs : jsStrFalsy (some actor) = false := by
      simp [jsStrFalsy, hactor]
    simp only [BskyClient.getNonMutualFollows, hs, Bool.false_eq_true, if_false]
    simpa using nonMutualLoop_exact profiles actor limit pages [] none hne hnonempty
      hok hcur (by simpa using hK)
  · intro v hv
    rw [List.mem_map] at hv
    obtain ⟨w, _, rfl⟩ := hv
    rfl

/-- C6 witness: over the two concrete pages (users a, b with a cursor, then
user d without one), where a and d are not followed back and b is, the
operation returns exactly the flagged entries a and d (K = 2 < 10). -/
theorem c6_witness :
    (BskyClient.getNonMutualFollows ⟨some "did:me"⟩ 10 exProfiles
        (exFollowPages.map Except.ok)).2 =
      some (Except.ok
        (((pagesUsers exFollowPages).filter
            fun v => !(followedBackBy exProfiles v)).map
          fun v => { v with followsMe := some false })) ∧
    ((pagesUsers exFollowPages).filter
        fun v => !(followedBackBy exProfiles v)).length = 2 :=
  ⟨(c6_non_mutual_exact "did:me" 10 exProfiles exFollowPages (by decide) (by decide)
      (by decide) (by decide) (by decide) (by decide)).1, by decide⟩

end Socialkit
